import Mathlib

/-!
Verification development for a chat front-end (`app.py`) that forwards user
messages to a remote text-generation API.  The logical core embedded here:

* `containsStr` — the Python `in` substring test on strings;
* `pyStrip` — Python `str.strip()` (whitespace at both ends);
* `conversationContext` — the loop over `history[-3:]` building the context;
* `buildPrompt` — the if/elif template-dispatch chain of `chat_response`
  (lines 106-137 of the source);
* `query_model` — the HTTP-outcome classification (lines 54-92); the HTTP
  response itself is external input, modelled by `HttpOutcome`; Python
  exceptions that escape the function (AttributeError from calling `.get`
  on a non-dict, or `.strip` on a non-string) are modelled with `Except`;
* `chat_response` — composition of the above (lines 94-145); list `append`
  becomes a functional `++ [pair]`;
* `chat_responseWith` — the same control flow with the remote call kept
  abstract as a total oracle (used to state independence from the remote
  client); the oracle receives the prompt and the generation parameters;
* `models` / `set_model` — the static catalog and the model-selection
  operation (lines 10-52), with the `KeyError` of a failed dict lookup
  modelled by `Except`, returned together with the already-updated state.
-/

/-- Does the character list `pat` occur as a leading block of `s`?
(Helper for the Python `in` operator.) -/
def matchAt : List Char → List Char → Bool
  | [], _ => true
  | _ :: _, [] => false
  | a :: pa, b :: sb => a == b && matchAt pa sb

/-- Does `pat` occur contiguously anywhere in `s`?
(Helper for the Python `in` operator.) -/
def hasSub (pat : List Char) : List Char → Bool
  | [] => pat.isEmpty
  | b :: t => matchAt pat (b :: t) || hasSub pat t

/-- Python `pat in s` on strings: contiguous substring containment. -/
def containsStr (s pat : String) : Bool :=
  hasSub pat.data s.data

/-- The whitespace characters removed by Python `str.strip()` (ASCII range). -/
def pyIsSpace (c : Char) : Bool :=
  c == ' ' || c == '\t' || c == '\n' || c == '\r' || c == '\x0b' || c == '\x0c'

/-- Python `str.strip()`: drop whitespace from both ends. -/
def pyStrip (s : String) : String :=
  ((s.data.dropWhile pyIsSpace).reverse.dropWhile pyIsSpace).reverse.asString

/-- Python `str.lower()` on the ASCII identifiers involved: lower-case every
character. -/
def pyLower (s : String) : String :=
  (s.data.map Char.toLower).asString

/-- Python `history[-3:]`: the trailing window of at most three turns. -/
def lastThree {α : Type} (h : List α) : List α :=
  h.drop (h.length - 3)

/-- Lines 101-103 of the source: the loop
`for user_msg, bot_msg in history[-3:]` accumulating
`"ユーザー: {user_msg}\nアシスタント: {bot_msg}\n"` onto an initially empty
string. -/
def conversationContext (history : List (String × String)) : String :=
  (lastThree history).foldl
    (fun acc t => acc ++ ("ユーザー: " ++ t.1 ++ "\nアシスタント: " ++ t.2 ++ "\n")) ""

/-- Lines 106-137 of the source: the if/elif prompt-template dispatch on the
lower-cased current model identifier. -/
def buildPrompt (currentModel : String) (history : List (String × String))
    (message : String) : String :=
  let conversation_context := conversationContext history
  let m := pyLower currentModel
  if containsStr m "weblab" || containsStr m "matsuo-lab" then
    "以下は、タスクを説明する指示と、文脈のある入力の組み合わせです。要求を適切に満たす応答を書いてください。\n\n### 指示:\n日本語で自然な会話を行ってください。\n\n### 入力:\n" ++
      conversation_context ++ "ユーザー: " ++ message ++ "\n\n### 応答:\n"
  else if containsStr m "rinna" && containsStr m "instruction" then
    conversation_context ++ "ユーザー: " ++ message ++ "\nアシスタント:"
  else if containsStr m "elyza" || containsStr m "swallow" then
    "以下は、タスクを説明する指示です。要求を適切に満たす応答を書きなさい。\n\n### 指示:\n" ++
      conversation_context ++ "ユーザー: " ++ message ++ "\n\n### 応答:"
  else if containsStr m "llama" && (containsStr m "chat" || containsStr m "instruct") then
    if containsStr m "llama-3" then
      "<|begin_of_text|><|start_header_id|>user<|end_header_id|>\n\n" ++
        conversation_context ++ "ユーザー: " ++ message ++
        "<|eot_id|><|start_header_id|>assistant<|end_header_id|>\n\n"
    else
      "<s>[INST] " ++ conversation_context ++ "ユーザー: " ++ message ++ " [/INST]"
  else if containsStr m "mistral" || containsStr m "zephyr" then
    "<s>[INST] " ++ conversation_context ++ "ユーザー: " ++ message ++ " [/INST]"
  else if containsStr m "nous" then
    "### Instruction:\n" ++ conversation_context ++ "ユーザー: " ++ message ++
      "\n\n### Response:"
  else if containsStr m "solar" then
    "### User:\n" ++ conversation_context ++ "ユーザー: " ++ message ++
      "\n\n### Assistant:"
  else if containsStr m "instruct" then
    "以下は、タスクを説明する指示と、文脈のある入力の組み合わせです。要求を適切に満たす応答を書いてください。\n\n### 指示:\n日本語で自然な会話を行ってください。\n\n### 入力:\n" ++
      conversation_context ++ "ユーザー: " ++ message ++ "\n\n### 応答:\n"
  else
    conversation_context ++ "ユーザー: " ++ message ++ "\nアシスタント:"

/-- A JSON value, as produced by `response.json()`. -/
inductive Json where
  | null
  | bool (b : Bool)
  | num (n : Int)
  | str (s : String)
  | arr (xs : List Json)
  | obj (kvs : List (String × Json))

/-- Is the JSON value a non-empty array?
(The `isinstance(result, list) and len(result) > 0` test of line 77.) -/
def Json.isNonEmptyArr : Json → Bool
  | .arr (_ :: _) => true
  | _ => false

/-- Python `x.get(key, default)`: succeeds only when `x` is a dict,
otherwise the call raises AttributeError. -/
def Json.get : Json → String → Json → Except String Json
  | .obj kvs, key, dflt => .ok ((kvs.lookup key).getD dflt)
  | _, _, _ => .error "AttributeError"

/-- Python `x.strip()` on a JSON value: succeeds only when `x` is a string,
otherwise the call raises AttributeError. -/
def Json.stripStr : Json → Except String String
  | .str s => .ok (pyStrip s)
  | _ => .error "AttributeError"

/-- The possible outcomes of the `requests.post` call of line 73: a response
with a status code and a decoded JSON body, a timeout, or another transport
exception carrying its description. -/
inductive HttpOutcome where
  | response (status : Nat) (body : Json)
  | timeout
  | requestException (e : String)

/-- Lines 54-92 of the source, `query_model`: classification of the HTTP
outcome.  `hasHeaders` is the `if not self.headers` check; `prompt` and
`maxLength` travel into the request payload and influence only the external
outcome, which is the explicit `outcome` argument here. -/
def query_model (hasHeaders : Bool) (prompt : String) (maxLength : Nat)
    (outcome : HttpOutcome) : Except String String :=
  if !hasHeaders then .ok "❌ APIキーが設定されていません"
  else
    match outcome with
    | .response status body =>
      if status = 200 then
        match body with
        | .arr (x :: _) => do
          let g ← x.get "generated_text" (.str "")
          g.stripStr
        | _ => .ok "❌ 予期しないレスポンス形式です"
      else if status = 503 then
        .ok "⏳ モデルが読み込み中です。しばらく待ってから再試行してください。"
      else if status = 401 then
        .ok "❌ APIキーが無効です"
      else
        .ok ("❌ エラーが発生しました (ステータス: " ++ toString status ++ ")")
    | .timeout => .ok "⏳ リクエストがタイムアウトしました。再試行してください。"
    | .requestException e => .ok ("❌ 接続エラー: " ++ e)

/-- Lines 94-145 of the source, `chat_response`, composed with the embedded
`query_model`: blank messages short-circuit; otherwise the prompt is built,
the remote client is consulted, and the (message, response) pair is appended
to the history.  A Python exception escaping `query_model` propagates, so it
surfaces as `Except.error` here, with no pair appended. -/
def chat_response (model : String) (hasHeaders : Bool) (outcome : HttpOutcome)
    (message : String) (history : List (String × String)) (maxLength : Nat) :
    Except String (String × List (String × String)) :=
  if pyStrip message = "" then .ok ("", history)
  else
    let prompt := buildPrompt model history message
    match query_model hasHeaders prompt maxLength outcome with
    | .ok resp => .ok ("", history ++ [(message, resp)])
    | .error e => .error e

/-- The same control flow with the remote client abstracted as a total oracle
`query`, receiving the prompt and the generation parameters (of an arbitrary
type `π`, covering maximum length and temperature).  Used to state that the
result does not depend on the oracle in the blank-message case, i.e. that the
remote client is never invoked there. -/
def chat_responseWith {π : Type} (model : String) (query : String → π → String)
    (message : String) (history : List (String × String)) (params : π) :
    String × List (String × String) :=
  if pyStrip message = "" then ("", history)
  else
    let prompt := buildPrompt model history message
    ("", history ++ [(message, query prompt params)])

/-- The static model catalog of lines 10-32 (identifier, display label). -/
def models : List (String × String) :=
  [("cyberagent/open-calm-7b", "CyberAgent Open CALM 7B"),
   ("rinna/japanese-gpt-neox-3.6b-instruction-sft", "Rinna GPT-NeoX 3.6B"),
   ("matsuo-lab/weblab-10b-instruction-sft", "Matsuo Lab WebLab 10B"),
   ("stabilityai/japanese-stablelm-instruct-alpha-7b", "Japanese StableLM 7B"),
   ("tokyotech-llm/Swallow-7b-instruct-hf", "Swallow 7B Instruct (日本語対応)"),
   ("elyza/ELYZA-japanese-Llama-2-7b-instruct", "ELYZA Japanese Llama 2 7B"),
   ("microsoft/DialoGPT-large", "DialoGPT Large (対話特化)"),
   ("bigscience/bloom-7b1", "BLOOM 7B (多言語)"),
   ("mistralai/Mistral-7B-Instruct-v0.2", "Mistral 7B Instruct v0.2"),
   ("microsoft/DialoGPT-medium", "DialoGPT Medium (対話特化)"),
   ("HuggingFaceH4/zephyr-7b-beta", "Zephyr 7B Beta (対話特化)"),
   ("NousResearch/Nous-Hermes-2-Yi-34B", "Nous Hermes 2 Yi 34B"),
   ("upstage/SOLAR-10.7B-Instruct-v1.0", "SOLAR 10.7B Instruct"),
   ("meta-llama/Meta-Llama-3.1-70B-Instruct", "Llama 3.1 70B Instruct (PRO)"),
   ("meta-llama/Llama-2-70b-chat-hf", "Llama 2 70B Chat (PRO)"),
   ("meta-llama/Meta-Llama-3-70B-Instruct", "Llama 3 70B Instruct (PRO)")]

/-- The mutable session state: the currently selected model identifier
(`self.current_model`, default-initialized at line 35). -/
structure SessionState where
  current_model : String
deriving DecidableEq

/-- Lines 49-52 of the source, `set_model`: the assignment
`self.current_model = model_name` happens first; the return expression then
looks the name up in the catalog, and a missing key raises KeyError.  The
result pairs the state as it is after the call with the normal or
exceptional return value. -/
def set_model (st : SessionState) (model_name : String) :
    SessionState × Except String String :=
  let st' : SessionState := { st with current_model := model_name }
  match models.lookup model_name with
  | some label => (st', .ok ("モデルを " ++ label ++ " に変更しました"))
  | none => (st', .error "KeyError")

/-- The serialization of one stored turn as the source writes it inside the
context loop (line 103): `"ユーザー: {u}\nアシスタント: {a}\n"`. -/
def serializeTurn (t : String × String) : String :=
  "ユーザー: " ++ t.1 ++ "\nアシスタント: " ++ t.2 ++ "\n"

/-- Modelled from the spec: the per-turn serialization format the spec
claims, `"User: {u}\nAssistant: {a}\n"`, for comparison with
`serializeTurn`. -/
def specTurnFormat (t : String × String) : String :=
  "User: " ++ t.1 ++ "\nAssistant: " ++ t.2 ++ "\n"

/-- Does the string `s` begin with the string `p`? -/
def strStarts (s p : String) : Bool :=
  matchAt p.data s.data

/-- Does the string `s` end with the string `p`? -/
def strEnds (s p : String) : Bool :=
  matchAt p.data.reverse s.data.reverse

/-! ## Helper lemmas -/

/-- A block matches at the front of itself extended by anything. -/
theorem matchAt_self_append (p l : List Char) : matchAt p (p ++ l) = true := by
  induction p with
  | nil => rfl
  | cons a pa ih => simp [matchAt, ih]

/-- `strStarts` holds for a literal left factor. -/
theorem strStarts_append (a s : String) : strStarts (a ++ s) a = true := by
  rw [strStarts, String.data_append]
  exact matchAt_self_append a.data s.data

/-- `strEnds` holds for a literal right factor. -/
theorem strEnds_append (s b : String) : strEnds (s ++ b) b = true := by
  rw [strEnds, String.data_append, List.reverse_append]
  exact matchAt_self_append b.data.reverse s.data.reverse

/-- Folding string concatenation from any accumulator is the accumulator
followed by the joined list. -/
theorem strFoldl_append (l : List String) (acc : String) :
    l.foldl (fun a b => a ++ b) acc = acc ++ String.join l := by
  induction l generalizing acc with
  | nil => simp [String.join, List.foldl]
  | cons x xs ih =>
    have hjoin : String.join (x :: xs) = x ++ String.join xs := by
      show xs.foldl (fun a b => a ++ b) ("" ++ x) = x ++ String.join xs
      rw [ih ("" ++ x), String.empty_append]
    show xs.foldl (fun a b => a ++ b) (acc ++ x) = acc ++ String.join (x :: xs)
    rw [ih (acc ++ x), hjoin, String.append_assoc]

/-- The context built over a history that ends in three turns is exactly the
serialization of those three turns, whatever comes before. -/
theorem conversationContext_append3 (pre : List (String × String))
    (t1 t2 t3 : String × String) :
    conversationContext (pre ++ [t1, t2, t3]) =
      serializeTurn t1 ++ serializeTurn t2 ++ serializeTurn t3 := by
  have hlen : (pre ++ [t1, t2, t3]).length - 3 = pre.length := by
    simp [List.length_append]
  have hdrop : lastThree (pre ++ [t1, t2, t3]) = [t1, t2, t3] := by
    rw [lastThree, hlen, List.drop_left]
  rw [conversationContext, hdrop]
  simp [List.foldl, serializeTurn, String.empty_append]

/-- Existential decomposition for branches with a leading template literal. -/
theorem decompAux1 (a ctx u msg b : String) :
    ∃ x y, a ++ ctx ++ u ++ msg ++ b = x ++ (ctx ++ (u ++ msg)) ++ y :=
  ⟨a, b, by simp [String.append_assoc]⟩

/-- Existential decomposition for branches starting with the context. -/
theorem decompAux2 (ctx u msg b : String) :
    ∃ x y, ctx ++ u ++ msg ++ b = x ++ (ctx ++ (u ++ msg)) ++ y :=
  ⟨"", b, by simp [String.append_assoc, String.empty_append]⟩

/-- Every branch of the dispatcher embeds the conversation context followed
immediately by the user line for the new message. -/
theorem buildPrompt_decomp (model : String) (h : List (String × String))
    (msg : String) :
    ∃ a b, buildPrompt model h msg =
      a ++ (conversationContext h ++ ("ユーザー: " ++ msg)) ++ b := by
  simp only [buildPrompt]
  repeat' split
  all_goals first
    | exact decompAux2 _ _ _ _
    | exact decompAux1 _ _ _ _ _

/-! ## Claim theorems -/

/-- C1: for a history with more than 3 turns and a non-blank message, the
conversation context of the prompt built by chat_response is exactly the
serialization of the last 3 turns (independent of the earlier turns), this
context appears inside the built prompt immediately followed by the user
line for the new message, and the call leaves the stored turns preceding the
appended new turn unchanged. -/
theorem C1_context_window (model : String) (pre : List (String × String))
    (t1 t2 t3 : String × String) (msg : String)
    (_hpre : pre ≠ []) (hmsg : pyStrip msg ≠ "") :
    conversationContext (pre ++ [t1, t2, t3]) =
        serializeTurn t1 ++ serializeTurn t2 ++ serializeTurn t3
    ∧ (∃ a b, buildPrompt model (pre ++ [t1, t2, t3]) msg =
        a ++ (serializeTurn t1 ++ serializeTurn t2 ++ serializeTurn t3 ++
          ("ユーザー: " ++ msg)) ++ b)
    ∧ (∀ (π : Type) (query : String → π → String) (params : π),
        (chat_responseWith model query msg (pre ++ [t1, t2, t3]) params).2 =
          (pre ++ [t1, t2, t3]) ++
            [(msg, query (buildPrompt model (pre ++ [t1, t2, t3]) msg) params)]) := by
  refine ⟨conversationContext_append3 pre t1 t2 t3, ?_, ?_⟩
  · obtain ⟨a, b, hab⟩ := buildPrompt_decomp model (pre ++ [t1, t2, t3]) msg
    exact ⟨a, b, by rw [hab, conversationContext_append3]⟩
  · intro π query params
    rw [chat_responseWith, if_neg hmsg]

/-- Witness for C1 at a concrete four-turn history and message. -/
theorem C1_context_window_witness :
    conversationContext ([(("a" : String), ("b" : String))] ++
        [("c", "d"), ("e", "f"), ("g", "h")]) =
        serializeTurn ("c", "d") ++ serializeTurn ("e", "f") ++ serializeTurn ("g", "h")
    ∧ (∃ a b, buildPrompt "cyberagent/open-calm-7b"
        ([(("a" : String), ("b" : String))] ++ [("c", "d"), ("e", "f"), ("g", "h")]) "hi" =
        a ++ (serializeTurn ("c", "d") ++ serializeTurn ("e", "f") ++
          serializeTurn ("g", "h") ++ ("ユーザー: " ++ "hi")) ++ b)
    ∧ (∀ (π : Type) (query : String → π → String) (params : π),
        (chat_responseWith "cyberagent/open-calm-7b" query "hi"
            ([(("a" : String), ("b" : String))] ++ [("c", "d"), ("e", "f"), ("g", "h")])
            params).2 =
          ([(("a" : String), ("b" : String))] ++ [("c", "d"), ("e", "f"), ("g", "h")]) ++
            [("hi", query (buildPrompt "cyberagent/open-calm-7b"
              ([(("a" : String), ("b" : String))] ++ [("c", "d"), ("e", "f"), ("g", "h")])
              "hi") params)]) :=
  C1_context_window "cyberagent/open-calm-7b" [("a", "b")] ("c", "d") ("e", "f") ("g", "h")
    "hi" (by decide) (by decide)

/-- C2: a model identifier whose lower-cased form contains none of the
recognized substrings is dispatched to the default plain-dialogue template:
the conversation context followed by the user line and an assistant cue.
Dispatch is a total function on all string inputs by construction. -/
theorem C2_default_template (model : String) (history : List (String × String))
    (msg : String) (_hmsg : pyStrip msg ≠ "")
    (h1 : containsStr (pyLower model) "weblab" = false)
    (h2 : containsStr (pyLower model) "matsuo-lab" = false)
    (h3 : (containsStr (pyLower model) "rinna" &&
      containsStr (pyLower model) "instruction") = false)
    (h4 : containsStr (pyLower model) "elyza" = false)
    (h5 : containsStr (pyLower model) "swallow" = false)
    (h6 : (containsStr (pyLower model) "llama" && (containsStr (pyLower model) "chat" ||
      containsStr (pyLower model) "instruct")) = false)
    (h7 : containsStr (pyLower model) "mistral" = false)
    (h8 : containsStr (pyLower model) "zephyr" = false)
    (h9 : containsStr (pyLower model) "nous" = false)
    (h10 : containsStr (pyLower model) "solar" = false)
    (h11 : containsStr (pyLower model) "instruct" = false) :
    buildPrompt model history msg =
      conversationContext history ++ "ユーザー: " ++ msg ++ "\nアシスタント:" := by
  have h6' : (containsStr (pyLower model) "llama" &&
      containsStr (pyLower model) "chat") = false := by
    rw [h11] at h6
    simpa using h6
  simp [buildPrompt, h1, h2, h3, h4, h5, h6, h6', h7, h8, h9, h10, h11]

/-- Witness for C2 at the catalog identifier of DialoGPT Large. -/
theorem C2_default_template_witness :
    buildPrompt "microsoft/DialoGPT-large" [("a", "b")] "hi" =
      conversationContext [("a", "b")] ++ "ユーザー: " ++ "hi" ++ "\nアシスタント:" :=
  C2_default_template "microsoft/DialoGPT-large" [("a", "b")] "hi" (by decide)
    (by decide) (by decide) (by decide) (by decide) (by decide) (by decide)
    (by decide) (by decide) (by decide) (by decide) (by decide)

/-- C5: a blank (empty or whitespace-only) message makes chat_response return
the history unchanged with an empty message-box value, independently of the
remote-client oracle and of any generation parameters, and with the composed
remote client for every HTTP outcome. -/
theorem C5_blank_message (model : String) (message : String)
    (history : List (String × String)) (hblank : pyStrip message = "") :
    (∀ (π : Type) (query : String → π → String) (params : π),
        chat_responseWith model query message history params = ("", history))
    ∧ (∀ (hasHeaders : Bool) (outcome : HttpOutcome) (maxLength : Nat),
        chat_response model hasHeaders outcome message history maxLength =
          .ok ("", history)) := by
  constructor
  · intro π query params
    rw [chat_responseWith, if_pos hblank]
  · intro hasHeaders outcome maxLength
    rw [chat_response, if_pos hblank]

/-- Witness for C5 at a whitespace-only message. -/
theorem C5_blank_message_witness :
    (∀ (π : Type) (query : String → π → String) (params : π),
        chat_responseWith "cyberagent/open-calm-7b" query "  " [("a", "b")] params =
          ("", [("a", "b")]))
    ∧ (∀ (hasHeaders : Bool) (outcome : HttpOutcome) (maxLength : Nat),
        chat_response "cyberagent/open-calm-7b" hasHeaders outcome "  " [("a", "b")]
            maxLength = .ok ("", [("a", "b")])) :=
  C5_blank_message "cyberagent/open-calm-7b" "  " [("a", "b")] (by decide)

/-- C10: selecting a model identifier that is not in the catalog first
overwrites the current selection and only then fails with KeyError on the
display-label lookup, so after the failed call the session state already
carries the unknown identifier. -/
theorem C10_set_model_nonatomic (st : SessionState) (name : String)
    (hmiss : models.lookup name = none) :
    (set_model st name).1.current_model = name ∧
      (set_model st name).2 = .error "KeyError" := by
  rw [set_model]
  simp [hmiss]

/-- C3 counterexample: a model identifier containing "mistral" that also
contains an earlier-priority substring ("weblab") is dispatched by the
earlier branch, so its prompt does not begin with the bracketed instruction
tag, refuting the claim as universally stated. -/
theorem C3_counterexample :
    containsStr (pyLower "matsuo-lab/weblab-10b-mistral") "mistral" = true ∧
      strStarts (buildPrompt "matsuo-lab/weblab-10b-mistral" [] "hello")
        "<s>[INST] " = false := by
  constructor
  · decide
  · decide

/-- C3 amended: for a model identifier containing "mistral" that matches
none of the earlier-priority branch predicates (weblab, matsuo-lab,
rinna with instruction, elyza, swallow, llama with chat or instruct), and
any history, the prompt for the message "hello" is the bracketed
instruction tag around the conversation context and the user line, so it
begins with the opening tag and ends with the closing tag. -/
theorem C3_mistral_wrapper (model : String) (history : List (String × String))
    (h1 : containsStr (pyLower model) "weblab" = false)
    (h2 : containsStr (pyLower model) "matsuo-lab" = false)
    (h3 : (containsStr (pyLower model) "rinna" &&
      containsStr (pyLower model) "instruction") = false)
    (h4 : containsStr (pyLower model) "elyza" = false)
    (h5 : containsStr (pyLower model) "swallow" = false)
    (h6 : (containsStr (pyLower model) "llama" && (containsStr (pyLower model) "chat" ||
      containsStr (pyLower model) "instruct")) = false)
    (h7 : containsStr (pyLower model) "mistral" = true) :
    buildPrompt model history "hello" =
      "<s>[INST] " ++ (conversationContext history ++ ("ユーザー: " ++ "hello")) ++ " [/INST]"
    ∧ strStarts (buildPrompt model history "hello") "<s>[INST] " = true
    ∧ strEnds (buildPrompt model history "hello") " [/INST]" = true := by
  have hmain : buildPrompt model history "hello" =
      "<s>[INST] " ++ (conversationContext history ++ ("ユーザー: " ++ "hello")) ++
        " [/INST]" := by
    simp [buildPrompt, h1, h2, h3, h4, h5, h6, h7, String.append_assoc]
  refine ⟨hmain, ?_, ?_⟩
  · rw [hmain, String.append_assoc]
    exact strStarts_append _ _
  · rw [hmain]
    exact strEnds_append _ _

/-- Witness for C3 (amended) at the catalog identifier of Mistral 7B. -/
theorem C3_mistral_wrapper_witness :
    buildPrompt "mistralai/Mistral-7B-Instruct-v0.2" [("a", "b")] "hello" =
      "<s>[INST] " ++ (conversationContext [("a", "b")] ++ ("ユーザー: " ++ "hello")) ++
        " [/INST]"
    ∧ strStarts (buildPrompt "mistralai/Mistral-7B-Instruct-v0.2" [("a", "b")] "hello")
        "<s>[INST] " = true
    ∧ strEnds (buildPrompt "mistralai/Mistral-7B-Instruct-v0.2" [("a", "b")] "hello")
        " [/INST]" = true :=
  C3_mistral_wrapper "mistralai/Mistral-7B-Instruct-v0.2" [("a", "b")] (by decide)
    (by decide) (by decide) (by decide) (by decide) (by decide) (by decide)

/-- C4 counterexample: the stored turns are serialized with the Japanese
labels of the source, not the English labels the claim states, so at the
one-turn history the context differs from the claimed format. -/
theorem C4_counterexample :
    conversationContext [("a", "b")] ≠ specTurnFormat ("a", "b") ∧
      conversationContext [("a", "b")] = serializeTurn ("a", "b") := by
  constructor
  · decide
  · decide

/-- C4 amended: the conversation-context portion serializes each turn of the
context window in order in the format of `serializeTurn`
(Japanese labels), and every dispatcher branch places template text around
the context followed immediately by the user line for the new message, with
wrapper text possibly both before and after it. -/
theorem C4_turn_serialization (model : String) (h : List (String × String))
    (msg : String) :
    conversationContext h = String.join ((lastThree h).map serializeTurn)
    ∧ (∃ a b, buildPrompt model h msg =
        a ++ (conversationContext h ++ ("ユーザー: " ++ msg)) ++ b) := by
  constructor
  · have hmap : ((lastThree h).map serializeTurn).foldl (fun a b => a ++ b) "" =
        (lastThree h).foldl
          (fun acc t =>
            acc ++ ("ユーザー: " ++ t.1 ++ "\nアシスタント: " ++ t.2 ++ "\n")) "" := by
      rw [List.foldl_map]
      rfl
    rw [conversationContext, ← hmap, strFoldl_append, String.empty_append]
  · exact buildPrompt_decomp model h msg

/-- C6 counterexample: an HTTP 200 body that is a non-empty array whose
first object lacks the generated-text field is malformed in the sense of
the claim, yet the client returns the empty string and not the
unexpected-shape indicator. -/
theorem C6_counterexample :
    query_model true "p" 200 (.response 200 (Json.arr [Json.obj []])) = .ok "" ∧
      ("" : String) ≠ "❌ 予期しないレスポンス形式です" := by
  constructor
  · rfl
  · decide

/-- C6 amended: the unexpected-shape indicator is returned exactly for HTTP
200 bodies that are not non-empty arrays; a non-empty array is instead
processed by taking the generated-text field of its first element. -/
theorem C6_unexpected_shape (prompt : String) (maxLength : Nat) (body : Json)
    (hbody : body.isNonEmptyArr = false) :
    query_model true prompt maxLength (.response 200 body) =
      .ok "❌ 予期しないレスポンス形式です" := by
  cases body with
  | arr xs =>
    cases xs with
    | nil => rfl
    | cons x t => simp [Json.isNonEmptyArr] at hbody
  | null => rfl
  | bool b => rfl
  | num n => rfl
  | str s => rfl
  | obj kvs => rfl

/-- Witness for C6 (amended) at a 200 response whose body is an object. -/
theorem C6_unexpected_shape_witness :
    query_model true "p" 200 (.response 200 (Json.obj [])) =
      .ok "❌ 予期しないレスポンス形式です" :=
  C6_unexpected_shape "p" 200 (Json.obj []) (by decide)

/-- C7: for an HTTP 200 response whose body is a non-empty array whose first
element is an object carrying a string generated-text field, the client
returns that text with surrounding whitespace stripped. -/
theorem C7_success_trimmed (prompt : String) (maxLength : Nat)
    (kvs : List (String × Json)) (rest : List Json) (s : String)
    (hfield : kvs.lookup "generated_text" = some (Json.str s)) :
    query_model true prompt maxLength (.response 200 (.arr (.obj kvs :: rest))) =
      .ok (pyStrip s) := by
  simp [query_model, Json.get, Json.stripStr, hfield]
  rfl

/-- Witness for C7 at the body of the spec example, returning the trimmed
text. -/
theorem C7_success_trimmed_witness :
    query_model true "p" 200
        (.response 200 (Json.arr [Json.obj [("generated_text", Json.str " hi there ")]])) =
      .ok "hi there" :=
  (C7_success_trimmed "p" 200 [("generated_text", Json.str " hi there ")] []
    " hi there " rfl).trans (by rfl)

/-- C8 counterexample: every result of the client is a plain string, so a
successful generated text can coincide with the invalid-credential
indicator; the claimed distinctness of indicators from successful text
fails. -/
theorem C8_counterexample :
    query_model true "p" 200
        (.response 200 (Json.arr [Json.obj [("generated_text",
          Json.str "❌ APIキーが無効です")]])) =
      query_model true "p" 200 (.response 401 Json.null) := by
  rfl

/-- C8 amended: status 503 yields the model-loading indicator, status 401
yields the invalid-credential indicator with no generated text, and any
other non-200 status yields the generic indicator naming that status
number; the fixed indicators differ from each other, but all results are
in-band strings not guaranteed distinct from generated text. -/
theorem C8_status_classification (prompt : String) (maxLength : Nat)
    (body : Json) (n : Nat) (h200 : n ≠ 200) (h503 : n ≠ 503) (h401 : n ≠ 401) :
    query_model true prompt maxLength (.response 503 body) =
        .ok "⏳ モデルが読み込み中です。しばらく待ってから再試行してください。"
    ∧ query_model true prompt maxLength (.response 401 body) =
        .ok "❌ APIキーが無効です"
    ∧ query_model true prompt maxLength (.response n body) =
        .ok ("❌ エラーが発生しました (ステータス: " ++ toString n ++ ")")
    ∧ ("⏳ モデルが読み込み中です。しばらく待ってから再試行してください。" : String) ≠
        "❌ APIキーが無効です" := by
  refine ⟨rfl, rfl, ?_, by decide⟩
  simp [query_model, h200, h503, h401]

/-- Witness for C8 (amended) at status 404. -/
theorem C8_status_classification_witness :
    query_model true "p" 200 (.response 503 Json.null) =
        .ok "⏳ モデルが読み込み中です。しばらく待ってから再試行してください。"
    ∧ query_model true "p" 200 (.response 401 Json.null) = .ok "❌ APIキーが無効です"
    ∧ query_model true "p" 200 (.response 404 Json.null) =
        .ok ("❌ エラーが発生しました (ステータス: " ++ toString 404 ++ ")")
    ∧ ("⏳ モデルが読み込み中です。しばらく待ってから再試行してください。" : String) ≠
        "❌ APIキーが無効です" :=
  C8_status_classification "p" 200 Json.null 404 (by decide) (by decide) (by decide)

/-- C9 counterexample: with a 200 response whose body is a non-empty array
holding a number, the call to the get method raises AttributeError inside
query_model; chat_response propagates it, so the call appends no turn at
all, refuting the claim that every non-blank call appends exactly one
pair. -/
theorem C9_counterexample :
    chat_response "cyberagent/open-calm-7b" true (.response 200 (Json.arr [Json.num 5]))
        "hi" [] 200 = .error "AttributeError" := by
  rfl

/-- C9 amended: whenever query_model returns a result string (a generated
text or a failure indicator), chat_response on a non-blank message appends
exactly that (message, result) pair at the end of the history, leaves the
existing entries unchanged, and the resulting history is non-empty; when
query_model instead raises, the exception propagates and nothing is
appended. -/
theorem C9_append_one_turn (model : String) (hasHeaders : Bool)
    (outcome : HttpOutcome) (msg : String) (history : List (String × String))
    (maxLength : Nat) (r : String) (hmsg : pyStrip msg ≠ "")
    (hok : query_model hasHeaders (buildPrompt model history msg) maxLength outcome =
      .ok r) :
    chat_response model hasHeaders outcome msg history maxLength =
        .ok ("", history ++ [(msg, r)])
    ∧ (history ++ [(msg, r)]).take history.length = history
    ∧ history ++ [(msg, r)] ≠ [] := by
  refine ⟨?_, ?_, by simp⟩
  · rw [chat_response, if_neg hmsg]
    simp [hok]
  · rw [List.take_left]

/-- Witness for C9 (amended): a 503 failure indicator is appended as the
assistant text of the new turn. -/
theorem C9_append_one_turn_witness :
    chat_response "cyberagent/open-calm-7b" true (.response 503 Json.null) "hi"
        [("a", "b")] 200 =
        .ok ("", [("a", "b")] ++
          [("hi", "⏳ モデルが読み込み中です。しばらく待ってから再試行してください。")])
    ∧ ([("a", "b")] ++
        [("hi", "⏳ モデルが読み込み中です。しばらく待ってから再試行してください。")]).take
          [(("a" : String), ("b" : String))].length = [("a", "b")]
    ∧ [("a", "b")] ++
        [("hi", "⏳ モデルが読み込み中です。しばらく待ってから再試行してください。")] ≠ [] :=
  C9_append_one_turn "cyberagent/open-calm-7b" true (.response 503 Json.null) "hi"
    [("a", "b")] 200 "⏳ モデルが読み込み中です。しばらく待ってから再試行してください。"
    (by decide) rfl

/-- Witness for C10 at an identifier absent from the catalog. -/
theorem C10_set_model_nonatomic_witness :
    (set_model ⟨"cyberagent/open-calm-7b"⟩ "no-such/model").1.current_model =
        "no-such/model" ∧
      (set_model ⟨"cyberagent/open-calm-7b"⟩ "no-such/model").2 = .error "KeyError" :=
  C10_set_model_nonatomic ⟨"cyberagent/open-calm-7b"⟩ "no-such/model" (by decide)
